import Mathlib

/-!
Shallow embedding of `aws-lambda/clip-generator/handler.py`.

The handler is modelled as a pure function over:
  * an inbound event, represented as an association list of JSON-like values
    (`JVal`); the top-level Lambda event is always a JSON object;
  * an `Oracle` describing the behaviour of the environment during this
    request: the uuid drawn for the workspace directory, whether the base64
    image decodes, the outcome of each `subprocess.run` call, whether the
    produced output file can be read back, the random storage-key suffix,
    the outcome of the Supabase upload, whether `shutil.rmtree` fails, and
    the outcome of the `ffmpeg -version` probe.

The function returns the transport response together with a trace of the
side effects performed (directory creation, file writes, the two ffmpeg
invocations with their full argument vectors, the upload request, and the
cleanup `rmtree`), in program order.

Abstractions, noted for the reader:
  * Python floats are modelled as exact rationals; `str`-to-number parsing
    of numeric strings (`float("10.5")`) is folded into the `JVal.num`
    constructor, so a field holding a numeric string is represented by the
    number it denotes.  Python accepts booleans for `float()`/`int()`;
    the model does too.
  * Exception objects are modelled by the `Exc` inductive; `str(e)` at the
    outermost `except Exception` boundary is represented structurally by
    the `RBody.errorExc` constructor carrying the exception value.
  * Non-string values in the `path` / `httpMethod` positions (which would
    crash `str.endswith` in Python) are collapsed to the empty string.
  * `json.loads` applied to a string body is supplied by the oracle as a
    partial function `String → Option JVal` (`none` models a raised
    `json.JSONDecodeError`).
-/

/-- JSON-like Python values appearing in the event and request body. -/
inductive JVal where
  | null
  | bool (b : Bool)
  | int (n : Int)
  | num (q : ℚ)
  | str (s : String)
  | obj (fields : List (String × JVal))

/-- One element of a subprocess argument vector: a literal string, a
number rendered by `str(...)`, or an arbitrary Python value interpolated
as-is (the un-coerced `recording_url`). -/
inductive Tok where
  | s (v : String)
  | q (v : ℚ)
  | j (v : JVal)

/-- Exceptions that can reach the outermost `except Exception` handler. -/
inductive Exc where
  | keyError (field : String)
  | valueError (what : String)
  | typeSubscript
  | b64Error
  | timeoutExpired (cmd : List Tok) (timeoutSecs : Nat)
  | fileNotFound (p : String)
  | urlError (msg : String)
  | jsonDecodeError
  | runFault (msg : String)

/-- The JSON body of the transport response, structurally:
`errorStr` for the explicit f-string error payloads built in the handler,
`errorExc` for `json.dumps (\x7b 'error': str(e) \x7d)` at the outer
`except`, `clipUrl` for the success payload, `health` for the health-check
payload (`status: healthy`, `ffmpeg_available: b`). -/
inductive RBody where
  | errorStr (msg : String)
  | errorExc (e : Exc)
  | clipUrl (url : String)
  | health (ffmpegAvailable : Bool)

/-- Transport response: status code plus body. -/
structure Response where
  statusCode : Nat
  body : RBody

/-- Outcome of one `subprocess.run` call: normal completion with exit
code and captured stderr, a `TimeoutExpired` raise, or another raised
infrastructure fault (binary missing etc.). -/
inductive RunOutcome where
  | done (returncode : Int) (stderr : String)
  | timeout
  | fault (msg : String)

/-- Outcome of the `urllib.request.urlopen` upload: success (with a flag
saying whether the response body parses as JSON), an `HTTPError` carrying
the store status code and response body, or another raised error. -/
inductive UploadOutcome where
  | ok (bodyParses : Bool)
  | httpError (code : Nat) (body : String)
  | fault (msg : String)

/-- Process configuration read from the environment at module load. -/
structure Config where
  supabaseUrl : String
  serviceKey : String

/-- Environment behaviour for one request (see module docstring). -/
structure Oracle where
  jsonLoads : String → Option JVal
  workUuid : String
  imageDecodeOk : Bool
  sliceRun : RunOutcome
  composeRun : RunOutcome
  readOk : Bool
  fileSuffix : String
  uploadRes : UploadOutcome
  rmtreeFails : Bool
  healthRun : RunOutcome

/-- Side effects performed by the handler, in program order. -/
inductive Ev where
  | mkdir (d : String)
  | writeFile (p : String)
  | runSlice (cmd : List Tok)
  | runCompose (cmd : List Tok)
  | readFile (p : String)
  | upload (url : String) (auth : String)
  | rmtree (d : String) (failed : Bool)
  | runVersion

/-- The six extracted and coerced request fields (handler.py lines 58-63). -/
structure Fields where
  recording_url : JVal
  start_seconds : ℚ
  end_seconds : ℚ
  chat_image_base64 : JVal
  call_id : JVal
  exchange_index : Int

/-- `event.get(k, '')` followed by use as a string: absent, `None` or
non-string values collapse to the empty (falsy) string. -/
def strOrEmpty : Option JVal → String
  | some (.str s) => s
  | _ => ""

/-- `event.get('path', '') or event.get('rawPath', '')`. -/
def pathOf (ev : List (String × JVal)) : String :=
  let p := strOrEmpty (ev.lookup "path")
  if p = "" then strOrEmpty (ev.lookup "rawPath") else p

/-- `event.get('httpMethod', '') or
event.get('requestContext', ).get('http', ).get('method', '')`. -/
def methodOf (ev : List (String × JVal)) : String :=
  let m := strOrEmpty (ev.lookup "httpMethod")
  if m = "" then
    match ev.lookup "requestContext" with
    | some (.obj rc) =>
      match rc.lookup "http" with
      | some (.obj h) => strOrEmpty (h.lookup "method")
      | _ => ""
    | _ => ""
  else m

/-- Python `s.endswith(suf)`: a string is a sequence of code points and
the test is suffix comparison on that sequence. -/
def pyEndsWith (s suf : String) : Bool :=
  suf.data.isSuffixOf s.data

/-- The health-check routing test (handler.py line 48):
path ends with `/health` and the method is `GET`. -/
def isHealthReq (ev : List (String × JVal)) : Bool :=
  pyEndsWith (pathOf ev) "/health" && methodOf ev == "GET"

/-- Body selection (handler.py lines 53-56): a string body is parsed with
`json.loads`; a present non-string body is used as-is; with no `body` key
the whole event is the payload. -/
def bodyOf (ev : List (String × JVal)) (jsonLoads : String → Option JVal) :
    Except Exc JVal :=
  match ev.lookup "body" with
  | some (.str s) =>
    match jsonLoads s with
    | some v => Except.ok v
    | none => Except.error Exc.jsonDecodeError
  | some v => Except.ok v
  | none => Except.ok (JVal.obj ev)

/-- `body[k]`: a `KeyError` when missing, a `TypeError` when `body` is not
a dict. -/
def subscript (v : JVal) (k : String) : Except Exc JVal :=
  match v with
  | .obj fs =>
    match fs.lookup k with
    | some x => Except.ok x
    | none => Except.error (Exc.keyError k)
  | _ => Except.error Exc.typeSubscript

/-- Python `float(x)` on the modelled value space. -/
def pyFloat (v : JVal) : Except Exc ℚ :=
  match v with
  | .num q => Except.ok q
  | .int n => Except.ok (n : ℚ)
  | .bool b => Except.ok (if b then 1 else 0)
  | _ => Except.error (Exc.valueError "float")

/-- Truncation toward zero, as Python `int()` does on a float. -/
def ratTrunc (q : ℚ) : Int :=
  Int.tdiv q.num (q.den : Int)

/-- Python `int(x)` on the modelled value space. -/
def pyInt (v : JVal) : Except Exc Int :=
  match v with
  | .int n => Except.ok n
  | .num q => Except.ok (ratTrunc q)
  | .bool b => Except.ok (if b then 1 else 0)
  | _ => Except.error (Exc.valueError "int")

/-- Python `str(x)` as used by the f-string building the storage key. -/
def pyStrOf : JVal → String
  | .str s => s
  | .int n => toString n
  | .num q => toString q
  | .bool b => if b then "True" else "False"
  | .null => "None"
  | .obj _ => "object"

/-- Field extraction and coercion, handler.py lines 58-63, in source
order; the first failing lookup or coercion raises. -/
def parseFields (body : JVal) : Except Exc Fields :=
  match subscript body "recording_url" with
  | .error e => Except.error e
  | .ok ru =>
  match subscript body "start_seconds" with
  | .error e => Except.error e
  | .ok ssv =>
  match pyFloat ssv with
  | .error e => Except.error e
  | .ok ss =>
  match subscript body "end_seconds" with
  | .error e => Except.error e
  | .ok esv =>
  match pyFloat esv with
  | .error e => Except.error e
  | .ok es =>
  match subscript body "chat_image_base64" with
  | .error e => Except.error e
  | .ok ci =>
  match subscript body "call_id" with
  | .error e => Except.error e
  | .ok cid =>
  match subscript body "exchange_index" with
  | .error e => Except.error e
  | .ok eiv =>
  match pyInt eiv with
  | .error e => Except.error e
  | .ok ei => Except.ok ⟨ru, ss, es, ci, cid, ei⟩

/-- The slice command (handler.py lines 82-89). -/
def sliceCmd (f : Fields) (workDir : String) : List Tok :=
  [Tok.s "/opt/bin/ffmpeg", Tok.s "-y",
   Tok.s "-ss", Tok.q f.start_seconds,
   Tok.s "-i", Tok.j f.recording_url,
   Tok.s "-t", Tok.q (f.end_seconds - f.start_seconds),
   Tok.s "-c:a", Tok.s "aac", Tok.s "-b:a", Tok.s "192k",
   Tok.s (workDir ++ "/audio.m4a")]

/-- The compose command (handler.py lines 107-115). -/
def composeCmd (workDir : String) : List Tok :=
  [Tok.s "/opt/bin/ffmpeg", Tok.s "-y",
   Tok.s "-loop", Tok.s "1", Tok.s "-i", Tok.s (workDir ++ "/chat.png"),
   Tok.s "-i", Tok.s (workDir ++ "/audio.m4a"),
   Tok.s "-c:v", Tok.s "libx264", Tok.s "-tune", Tok.s "stillimage",
   Tok.s "-pix_fmt", Tok.s "yuv420p",
   Tok.s "-c:a", Tok.s "aac", Tok.s "-b:a", Tok.s "192k",
   Tok.s "-shortest",
   Tok.s (workDir ++ "/output.mp4")]

/-- Storage key `callId_exchangeIndex_suffix.mp4` (handler.py line 137). -/
def fileNameOf (f : Fields) (suffix : String) : String :=
  pyStrOf f.call_id ++ "_" ++ toString f.exchange_index ++ "_" ++ suffix ++ ".mp4"

/-- The body of the inner `try` (handler.py lines 69-174): image write,
slice, compose, read-back, upload, success response.  Returns either a
normal `Response` or a raised exception, plus the trace of effects. -/
def genInner (cfg : Config) (o : Oracle) (f : Fields) (wd : String) :
    Except Exc Response × List Ev :=
  if o.imageDecodeOk then
    let tr1 := [Ev.writeFile (wd ++ "/chat.png")]
    let scmd := sliceCmd f wd
    let tr2 := tr1 ++ [Ev.runSlice scmd]
    match o.sliceRun with
    | .timeout => (Except.error (Exc.timeoutExpired scmd 120), tr2)
    | .fault m => (Except.error (Exc.runFault m), tr2)
    | .done rc st =>
      if rc ≠ 0 then
        (Except.ok ⟨500, RBody.errorStr ("FFmpeg slice failed: " ++ st)⟩, tr2)
      else
        let ccmd := composeCmd wd
        let tr3 := tr2 ++ [Ev.runCompose ccmd]
        match o.composeRun with
        | .timeout => (Except.error (Exc.timeoutExpired ccmd 120), tr3)
        | .fault m => (Except.error (Exc.runFault m), tr3)
        | .done rc2 st2 =>
          if rc2 ≠ 0 then
            (Except.ok ⟨500,
               RBody.errorStr ("FFmpeg video generation failed: " ++ st2)⟩, tr3)
          else
            let tr4 := tr3 ++ [Ev.readFile (wd ++ "/output.mp4")]
            if o.readOk then
              let fn := fileNameOf f o.fileSuffix
              let tr5 := tr4 ++
                [Ev.upload
                  (cfg.supabaseUrl ++ "/storage/v1/object/clips/" ++ fn)
                  ("Bearer " ++ cfg.serviceKey)]
              match o.uploadRes with
              | .httpError code b =>
                (Except.ok ⟨500,
                   RBody.errorStr
                     ("Supabase upload failed: " ++ toString code ++ " " ++ b)⟩,
                 tr5)
              | .fault m => (Except.error (Exc.urlError m), tr5)
              | .ok bodyParses =>
                if bodyParses then
                  (Except.ok ⟨200,
                     RBody.clipUrl
                       (cfg.supabaseUrl ++ "/storage/v1/object/public/clips/"
                         ++ fn)⟩, tr5)
                else (Except.error Exc.jsonDecodeError, tr5)
            else (Except.error (Exc.fileNotFound (wd ++ "/output.mp4")), tr4)
  else (Except.error Exc.b64Error, [])

/-- The outermost `except Exception` boundary: a raised exception becomes
a 500 with the exception text. -/
def respOf : Except Exc Response → Response
  | .ok r => r
  | .error e => ⟨500, RBody.errorExc e⟩

/-- The generation path applied to an already-selected body value:
validation, workspace creation, the inner `try`, the `finally` cleanup
(rmtree with `ignore_errors=True`), the outer `except`. -/
def genFromBody (cfg : Config) (o : Oracle) (body : JVal) :
    Response × List Ev :=
  match parseFields body with
  | .error e => (⟨500, RBody.errorExc e⟩, [])
  | .ok f =>
    let wd := "/tmp/clip-" ++ o.workUuid
    let p := genInner cfg o f wd
    (respOf p.1, Ev.mkdir wd :: p.2 ++ [Ev.rmtree wd o.rmtreeFails])

/-- Did `ffmpeg -version` complete with exit code 0?  Any raise
(timeout included) counts as unavailable, per the bare `except` in
`health`. -/
def runOk : RunOutcome → Bool
  | .done rc _ => rc == 0
  | _ => false

/-- The `health` endpoint (handler.py lines 190-210). -/
def health (o : Oracle) : Response × List Ev :=
  (⟨200, RBody.health (runOk o.healthRun)⟩, [Ev.runVersion])

/-- The Lambda handler (handler.py lines 30-187). -/
def handler (cfg : Config) (o : Oracle) (ev : List (String × JVal)) :
    Response × List Ev :=
  if isHealthReq ev then health o
  else
    match bodyOf ev o.jsonLoads with
    | .error e => (⟨500, RBody.errorExc e⟩, [])
    | .ok body => genFromBody cfg o body

/-- Replace the rmtree-failure flag of an oracle. -/
def setRmtreeFails (o : Oracle) (b : Bool) : Oracle :=
  ⟨o.jsonLoads, o.workUuid, o.imageDecodeOk, o.sliceRun, o.composeRun,
   o.readOk, o.fileSuffix, o.uploadRes, b, o.healthRun⟩

/-- Is this trace event an upload request to the store? -/
def isUploadEv : Ev → Bool
  | .upload _ _ => true
  | _ => false

/-- Python `s.startswith(pre)` on the code-point sequence. -/
def pyStartsWith (s pre : String) : Bool :=
  pre.data.isPrefixOf s.data

/-- Written from the spec's words, for comparison with the code: a
failure body tagged with the slice stage as `Failed("slice", …)` is
rendered by the handler as an `FFmpeg slice failed: …` message. -/
def specSliceTaggedMsg : RBody → Bool
  | .errorStr m => pyStartsWith m "FFmpeg slice failed: "
  | _ => false

/-- Fixture: a configuration for concrete instances. -/
def cfg0 : Config := ⟨"https://example.supabase.co", "sk-test"⟩

/-- Fixture: a `json.loads` double that always fails (never consulted by
the fixtures below, whose bodies are structured objects). -/
def noLoads : String → Option JVal := fun _ => none

/-- Fixture: an all-success environment. -/
def okOracle : Oracle :=
  ⟨noLoads, "u1", true, RunOutcome.done 0 "", RunOutcome.done 0 "", true,
   "abcd1234", UploadOutcome.ok true, false, RunOutcome.done 0 ""⟩

/-- Fixture: a valid six-field request body. -/
def validBody : List (String × JVal) :=
  [("recording_url", JVal.str "https://r.example/rec.mp4"),
   ("start_seconds", JVal.num (21/2)),
   ("end_seconds", JVal.num (253/10)),
   ("chat_image_base64", JVal.str "aGk="),
   ("call_id", JVal.str "call1"),
   ("exchange_index", JVal.int 0)]

/-- Fixture: the valid body wrapped in a `body` key, as API Gateway does. -/
def validEvent : List (String × JVal) := [("body", JVal.obj validBody)]

/-- Fixture: the parsed form of `validBody`. -/
def validFields : Fields :=
  ⟨JVal.str "https://r.example/rec.mp4", 21/2, 253/10, JVal.str "aGk=",
   JVal.str "call1", 0⟩

/-- Fixture: slice stage times out (raises `TimeoutExpired`). -/
def timeoutOracle : Oracle :=
  ⟨noLoads, "u1", true, RunOutcome.timeout, RunOutcome.done 0 "", true,
   "abcd1234", UploadOutcome.ok true, false, RunOutcome.done 0 ""⟩

/-- Fixture: slice stage exits non-zero with stderr `boom`. -/
def sliceFailOracle : Oracle :=
  ⟨noLoads, "u1", true, RunOutcome.done 1 "boom", RunOutcome.done 0 "", true,
   "abcd1234", UploadOutcome.ok true, false, RunOutcome.done 0 ""⟩

/-- Fixture: store rejects the upload with status 413, body
`quota exceeded`. -/
def httpErrOracle : Oracle :=
  ⟨noLoads, "u1", true, RunOutcome.done 0 "", RunOutcome.done 0 "", true,
   "abcd1234", UploadOutcome.httpError 413 "quota exceeded", false,
   RunOutcome.done 0 ""⟩

/-- Fixture: the `ffmpeg -version` probe raises (binary absent). -/
def downOracle : Oracle :=
  ⟨noLoads, "u1", true, RunOutcome.done 0 "", RunOutcome.done 0 "", true,
   "abcd1234", UploadOutcome.ok true, false, RunOutcome.fault "no ffmpeg"⟩

/-- Fixture: a GET request to a `/health`-suffixed path. -/
def healthEvent : List (String × JVal) :=
  [("path", JVal.str "/x/health"), ("httpMethod", JVal.str "GET")]

/-- Fixture: a request body with `end_seconds` (and later fields) missing. -/
def missingBody : List (String × JVal) :=
  [("recording_url", JVal.str "https://r.example/rec.mp4"),
   ("start_seconds", JVal.num 1)]

/-- Fixture: the missing-field body wrapped in a `body` key. -/
def missingEvent : List (String × JVal) := [("body", JVal.obj missingBody)]

/-- Fixture: a body whose numerics violate the spec's range invariant:
`end_seconds = 3 ≤ start_seconds = 5`. -/
def rangeBadBody : List (String × JVal) :=
  [("recording_url", JVal.str "https://r.example/rec.mp4"),
   ("start_seconds", JVal.num 5),
   ("end_seconds", JVal.num 3),
   ("chat_image_base64", JVal.str "aGk="),
   ("call_id", JVal.str "call1"),
   ("exchange_index", JVal.int 0)]

/-- Fixture: the range-violating body wrapped in a `body` key. -/
def rangeBadEvent : List (String × JVal) := [("body", JVal.obj rangeBadBody)]

/-- Fixture: the parsed form of `rangeBadBody`. -/
def rangeBadFields : Fields :=
  ⟨JVal.str "https://r.example/rec.mp4", 5, 3, JVal.str "aGk=",
   JVal.str "call1", 0⟩

/-- Replacing the rmtree-failure flag leaves the inner pipeline
untouched: the flag is only consulted by the `finally` cleanup. -/
theorem genInner_setRmtreeFails (cfg : Config) (o : Oracle) (bl : Bool)
    (f : Fields) (wd : String) :
    genInner cfg (setRmtreeFails o bl) f wd = genInner cfg o f wd := rfl

/-- The inner pipeline never creates a directory: the only `mkdir` is the
one issued by the handler before entering the inner `try`. -/
theorem genInner_no_mkdir (cfg : Config) (o : Oracle) (f : Fields)
    (wd d : String) :
    Ev.mkdir d ∉ (genInner cfg o f wd).2 := by
  unfold genInner
  repeat' split
  all_goals simp

/-- Once the image decodes, the slice invocation is issued whatever its
outcome turns out to be. -/
theorem genInner_runSlice (cfg : Config) (o : Oracle) (f : Fields)
    (wd : String) (h : o.imageDecodeOk = true) :
    Ev.runSlice (sliceCmd f wd) ∈ (genInner cfg o f wd).2 := by
  unfold genInner
  simp [h]
  repeat' split
  all_goals simp

/-- Claim C1: for every request that reaches workspace creation, whatever
the outcome, the handler issues the recursive deletion of the allocated
workspace directory before returning, and a failure of the deletion
itself (`ignore_errors=True`) never changes the primary response. -/
theorem c1_cleanup (cfg : Config) (o : Oracle) (bl : Bool)
    (ev : List (String × JVal)) :
    (∀ d, Ev.mkdir d ∈ (handler cfg o ev).2 →
        Ev.rmtree d o.rmtreeFails ∈ (handler cfg o ev).2)
    ∧ (handler cfg (setRmtreeFails o bl) ev).1 = (handler cfg o ev).1 := by
  constructor
  · intro d hd
    by_cases hh : isHealthReq ev = true
    · simp [handler, hh, health] at hd
    · rw [Bool.not_eq_true] at hh
      simp [handler, hh] at hd ⊢
      cases hb : bodyOf ev o.jsonLoads with
      | error e => simp [hb] at hd
      | ok body =>
        simp [hb, genFromBody] at hd ⊢
        cases hp : parseFields body with
        | error e => simp [hp] at hd
        | ok f =>
          simp [hp] at hd ⊢
          rcases hd with rfl | hmem
          · simp
          · exact absurd hmem (genInner_no_mkdir cfg o f _ d)
  · by_cases hh : isHealthReq ev = true
    · simp [handler, hh]; rfl
    · rw [Bool.not_eq_true] at hh
      have hb' : bodyOf ev (setRmtreeFails o bl).jsonLoads
          = bodyOf ev o.jsonLoads := rfl
      simp only [handler, hh, Bool.false_eq_true, if_false, hb']
      cases hb : bodyOf ev o.jsonLoads with
      | error e => simp [hb]
      | ok body =>
        simp [hb, genFromBody]
        cases hp : parseFields body with
        | error e => simp [hp]
        | ok f =>
          simp [hp]
          rw [genInner_setRmtreeFails]
          rfl

/-- Witness for C1: on the all-success run the cleanup is in the trace
and making the deletion fail does not change the response. -/
theorem c1_cleanup_witness :
    Ev.rmtree "/tmp/clip-u1" false ∈ (handler cfg0 okOracle validEvent).2
    ∧ (handler cfg0 (setRmtreeFails okOracle true) validEvent).1
        = (handler cfg0 okOracle validEvent).1 := by
  have h := c1_cleanup cfg0 okOracle true validEvent
  refine ⟨h.1 "/tmp/clip-u1" ?_, h.2⟩
  have ht : (handler cfg0 okOracle validEvent).2 =
      [Ev.mkdir "/tmp/clip-u1", Ev.writeFile "/tmp/clip-u1/chat.png",
       Ev.runSlice (sliceCmd validFields "/tmp/clip-u1"),
       Ev.runCompose (composeCmd "/tmp/clip-u1"),
       Ev.readFile "/tmp/clip-u1/output.mp4",
       Ev.upload "https://example.supabase.co/storage/v1/object/clips/call1_0_abcd1234.mp4"
         "Bearer sk-test",
       Ev.rmtree "/tmp/clip-u1" false] := rfl
  rw [ht]; simp

/-- Claim C2, counterexample: with a valid request and a slice stage that
exceeds its 120-second timeout, the response body is the generic
exception payload carrying the raised `TimeoutExpired`, not a message
tagged with the slice stage as the claim states. -/
theorem c2_counterexample :
    (handler cfg0 timeoutOracle validEvent).1 =
      ⟨500, RBody.errorExc
        (Exc.timeoutExpired (sliceCmd validFields "/tmp/clip-u1") 120)⟩
    ∧ specSliceTaggedMsg (handler cfg0 timeoutOracle validEvent).1.body = false :=
  ⟨rfl, rfl⟩

/-- Claim C2 as amended: a slice-stage timeout does not hang — the raised
`TimeoutExpired` is caught at the outermost boundary and the handler
returns the generic 500 error payload carrying that exception, which is
not the stage-tagged `FFmpeg slice failed: …` message. -/
theorem c2_timeout_generic (cfg : Config) (o : Oracle)
    (ev : List (String × JVal)) (b : JVal) (f : Fields)
    (h1 : isHealthReq ev = false)
    (h2 : bodyOf ev o.jsonLoads = Except.ok b)
    (h3 : parseFields b = Except.ok f)
    (h4 : o.imageDecodeOk = true)
    (h5 : o.sliceRun = RunOutcome.timeout) :
    (handler cfg o ev).1 =
      ⟨500, RBody.errorExc
        (Exc.timeoutExpired (sliceCmd f ("/tmp/clip-" ++ o.workUuid)) 120)⟩
    ∧ specSliceTaggedMsg (handler cfg o ev).1.body = false := by
  have hr : (handler cfg o ev).1 =
      ⟨500, RBody.errorExc
        (Exc.timeoutExpired (sliceCmd f ("/tmp/clip-" ++ o.workUuid)) 120)⟩ := by
    simp [handler, h1, h2, genFromBody, h3, genInner, h4, h5, respOf]
  exact ⟨hr, by rw [hr]; rfl⟩

/-- Witness for the amended C2 at a concrete timing-out request. -/
theorem c2_timeout_generic_witness :
    (handler cfg0 timeoutOracle validEvent).1 =
      ⟨500, RBody.errorExc
        (Exc.timeoutExpired (sliceCmd validFields "/tmp/clip-u1") 120)⟩
    ∧ specSliceTaggedMsg (handler cfg0 timeoutOracle validEvent).1.body = false :=
  c2_timeout_generic cfg0 timeoutOracle validEvent (JVal.obj validBody) validFields
    (by decide) rfl rfl rfl rfl

/-- Claim C3: whenever field extraction or numeric coercion of the six
required fields fails (missing key, wrong type, uncoercible numeric),
the handler returns a 500 failure carrying the raised exception and the
effect trace is empty — in particular no workspace directory was
created. -/
theorem c3_validation_no_workspace (cfg : Config) (o : Oracle)
    (ev : List (String × JVal)) (b : JVal) (e : Exc)
    (h1 : isHealthReq ev = false)
    (h2 : bodyOf ev o.jsonLoads = Except.ok b)
    (h3 : parseFields b = Except.error e) :
    handler cfg o ev = (⟨500, RBody.errorExc e⟩, []) := by
  simp [handler, h1, h2, genFromBody, h3]

/-- Witness for C3: a body missing `end_seconds` fails with the KeyError
and produces no filesystem effect. -/
theorem c3_validation_no_workspace_witness :
    handler cfg0 okOracle missingEvent =
      (⟨500, RBody.errorExc (Exc.keyError "end_seconds")⟩, []) :=
  c3_validation_no_workspace cfg0 okOracle missingEvent (JVal.obj missingBody)
    (Exc.keyError "end_seconds") (by decide) rfl rfl

/-- Claim C4: when the slice stage exits non-zero, the handler returns
the slice-tagged failure carrying the captured stderr, and no compose
invocation appears in the trace. -/
theorem c4_slice_fail_halts (cfg : Config) (o : Oracle)
    (ev : List (String × JVal)) (b : JVal) (f : Fields) (rc : Int) (st : String)
    (h1 : isHealthReq ev = false)
    (h2 : bodyOf ev o.jsonLoads = Except.ok b)
    (h3 : parseFields b = Except.ok f)
    (h4 : o.imageDecodeOk = true)
    (h5 : o.sliceRun = RunOutcome.done rc st)
    (h6 : rc ≠ 0) :
    (handler cfg o ev).1 = ⟨500, RBody.errorStr ("FFmpeg slice failed: " ++ st)⟩
    ∧ ∀ c, Ev.runCompose c ∉ (handler cfg o ev).2 := by
  simp [handler, h1, h2, genFromBody, h3, genInner, h4, h5, h6, respOf]

/-- Witness for C4: slice exiting 1 with stderr `boom`. -/
theorem c4_slice_fail_halts_witness :
    (handler cfg0 sliceFailOracle validEvent).1 =
      ⟨500, RBody.errorStr "FFmpeg slice failed: boom"⟩
    ∧ Ev.runCompose (composeCmd "/tmp/clip-u1")
        ∉ (handler cfg0 sliceFailOracle validEvent).2 := by
  have h := c4_slice_fail_halts cfg0 sliceFailOracle validEvent (JVal.obj validBody)
    validFields 1 "boom" (by decide) rfl rfl rfl rfl (by decide)
  exact ⟨h.1, h.2 (composeCmd "/tmp/clip-u1")⟩

/-- Claim C5: on full success the response is a 200 whose clipUrl is the
store base followed by the public-object path, the bucket name `clips`,
and the key `callId_exchangeIndex_randomSuffix.mp4`; exactly one store
round trip (the upload itself) appears in the trace. -/
theorem c5_success_url (cfg : Config) (o : Oracle)
    (ev : List (String × JVal)) (b : JVal) (f : Fields) (s1 s2 : String)
    (h1 : isHealthReq ev = false)
    (h2 : bodyOf ev o.jsonLoads = Except.ok b)
    (h3 : parseFields b = Except.ok f)
    (h4 : o.imageDecodeOk = true)
    (h5 : o.sliceRun = RunOutcome.done 0 s1)
    (h6 : o.composeRun = RunOutcome.done 0 s2)
    (h7 : o.readOk = true)
    (h8 : o.uploadRes = UploadOutcome.ok true) :
    (handler cfg o ev).1 =
      ⟨200, RBody.clipUrl (cfg.supabaseUrl ++ "/storage/v1/object/public/clips/"
        ++ (pyStrOf f.call_id ++ "_" ++ toString f.exchange_index ++ "_"
            ++ o.fileSuffix ++ ".mp4"))⟩
    ∧ List.countP isUploadEv (handler cfg o ev).2 = 1 := by
  simp [handler, h1, h2, genFromBody, h3, genInner, h4, h5, h6, h7, h8, respOf,
        fileNameOf, List.countP_cons, List.countP_append, isUploadEv]

/-- Witness for C5 on the concrete all-success request. -/
theorem c5_success_url_witness :
    (handler cfg0 okOracle validEvent).1 =
      ⟨200, RBody.clipUrl
        "https://example.supabase.co/storage/v1/object/public/clips/call1_0_abcd1234.mp4"⟩
    ∧ List.countP isUploadEv (handler cfg0 okOracle validEvent).2 = 1 := by
  have h := c5_success_url cfg0 okOracle validEvent (JVal.obj validBody) validFields
    "" "" (by decide) rfl rfl rfl rfl rfl rfl rfl
  exact ⟨h.1, h.2⟩

/-- Claim C6: a store rejection surfaces as a failure whose message is
exactly `Supabase upload failed: <status> <body>`, so both the status
code and the response body appear verbatim inside the message. -/
theorem c6_upload_error_verbatim (cfg : Config) (o : Oracle)
    (ev : List (String × JVal)) (b : JVal) (f : Fields) (s1 s2 : String)
    (code : Nat) (eb : String)
    (h1 : isHealthReq ev = false)
    (h2 : bodyOf ev o.jsonLoads = Except.ok b)
    (h3 : parseFields b = Except.ok f)
    (h4 : o.imageDecodeOk = true)
    (h5 : o.sliceRun = RunOutcome.done 0 s1)
    (h6 : o.composeRun = RunOutcome.done 0 s2)
    (h7 : o.readOk = true)
    (h8 : o.uploadRes = UploadOutcome.httpError code eb) :
    (handler cfg o ev).1 =
      ⟨500, RBody.errorStr
        ("Supabase upload failed: " ++ toString code ++ " " ++ eb)⟩
    ∧ (∃ a c, "Supabase upload failed: " ++ toString code ++ " " ++ eb
        = a ++ toString code ++ c)
    ∧ (∃ a c, "Supabase upload failed: " ++ toString code ++ " " ++ eb
        = a ++ eb ++ c) := by
  refine ⟨?_, ⟨"Supabase upload failed: ", " " ++ eb, ?_⟩,
    ⟨"Supabase upload failed: " ++ toString code ++ " ", "", ?_⟩⟩
  · simp [handler, h1, h2, genFromBody, h3, genInner, h4, h5, h6, h7, h8, respOf]
  · simp [String.append_assoc]
  · simp

/-- Witness for C6: the spec's concrete scenario C, a 413 with body
`quota exceeded`. -/
theorem c6_upload_error_verbatim_witness :
    (handler cfg0 httpErrOracle validEvent).1 =
      ⟨500, RBody.errorStr "Supabase upload failed: 413 quota exceeded"⟩
    ∧ (∃ a c, "Supabase upload failed: 413 quota exceeded"
        = a ++ "quota exceeded" ++ c) := by
  have h := c6_upload_error_verbatim cfg0 httpErrOracle validEvent (JVal.obj validBody)
    validFields "" "" 413 "quota exceeded" (by decide) rfl rfl rfl rfl rfl rfl rfl
  exact ⟨h.1, h.2.2⟩

/-- Claim C7, counterexample: a request with `end_seconds = 3` not
greater than `start_seconds = 5` is not rejected as a validation
failure — the slice stage is invoked and the request can even succeed
with a 200. -/
theorem c7_counterexample :
    rangeBadFields.end_seconds ≤ rangeBadFields.start_seconds
    ∧ Ev.runSlice (sliceCmd rangeBadFields "/tmp/clip-u1")
        ∈ (handler cfg0 okOracle rangeBadEvent).2
    ∧ (handler cfg0 okOracle rangeBadEvent).1.statusCode = 200 := by
  refine ⟨by norm_num [rangeBadFields], ?_, rfl⟩
  have ht : (handler cfg0 okOracle rangeBadEvent).2 =
      [Ev.mkdir "/tmp/clip-u1", Ev.writeFile "/tmp/clip-u1/chat.png",
       Ev.runSlice (sliceCmd rangeBadFields "/tmp/clip-u1"),
       Ev.runCompose (composeCmd "/tmp/clip-u1"),
       Ev.readFile "/tmp/clip-u1/output.mp4",
       Ev.upload "https://example.supabase.co/storage/v1/object/clips/call1_0_abcd1234.mp4"
         "Bearer sk-test",
       Ev.rmtree "/tmp/clip-u1" false] := rfl
  rw [ht]; simp

/-- Claim C7 as amended: the handler performs no range validation on the
numeric fields — even when `end_seconds ≤ start_seconds` or
`start_seconds < 0`, the pipeline proceeds to invoke the slice stage
(with a non-positive duration argument) instead of returning a
validation failure. -/
theorem c7_no_range_validation (cfg : Config) (o : Oracle)
    (ev : List (String × JVal)) (b : JVal) (f : Fields)
    (h1 : isHealthReq ev = false)
    (h2 : bodyOf ev o.jsonLoads = Except.ok b)
    (h3 : parseFields b = Except.ok f)
    (h4 : o.imageDecodeOk = true)
    (_h5 : f.end_seconds ≤ f.start_seconds ∨ f.start_seconds < 0) :
    Ev.runSlice (sliceCmd f ("/tmp/clip-" ++ o.workUuid)) ∈ (handler cfg o ev).2 := by
  simp [handler, h1, h2, genFromBody, h3]
  exact genInner_runSlice cfg o f _ h4

/-- Witness for the amended C7 at the concrete range-violating request. -/
theorem c7_no_range_validation_witness :
    Ev.runSlice (sliceCmd rangeBadFields "/tmp/clip-u1")
      ∈ (handler cfg0 okOracle rangeBadEvent).2 :=
  c7_no_range_validation cfg0 okOracle rangeBadEvent (JVal.obj rangeBadBody)
    rangeBadFields (by decide) rfl rfl rfl (Or.inl (by norm_num [rangeBadFields]))

/-- Claim C8: the slice invocation appears in the trace with its full
argument vector, whose `-t` flag is followed by exactly
`end_seconds − start_seconds`. -/
theorem c8_duration (cfg : Config) (o : Oracle)
    (ev : List (String × JVal)) (b : JVal) (f : Fields)
    (h1 : isHealthReq ev = false)
    (h2 : bodyOf ev o.jsonLoads = Except.ok b)
    (h3 : parseFields b = Except.ok f)
    (h4 : o.imageDecodeOk = true) :
    Ev.runSlice (sliceCmd f ("/tmp/clip-" ++ o.workUuid)) ∈ (handler cfg o ev).2
    ∧ (sliceCmd f ("/tmp/clip-" ++ o.workUuid))[6]? = some (Tok.s "-t")
    ∧ (sliceCmd f ("/tmp/clip-" ++ o.workUuid))[7]?
        = some (Tok.q (f.end_seconds - f.start_seconds)) := by
  refine ⟨?_, rfl, rfl⟩
  simp [handler, h1, h2, genFromBody, h3]
  exact genInner_runSlice cfg o f _ h4

/-- Witness for C8: the spec's scenario A, `start_seconds = 10.5`,
`end_seconds = 25.3`, gives a duration argument of exactly `14.8`
(floats are modelled as exact rationals). -/
theorem c8_duration_witness :
    Ev.runSlice (sliceCmd validFields "/tmp/clip-u1")
      ∈ (handler cfg0 okOracle validEvent).2
    ∧ (sliceCmd validFields "/tmp/clip-u1")[7]? = some (Tok.q (148/10)) := by
  have h := c8_duration cfg0 okOracle validEvent (JVal.obj validBody) validFields
    (by decide) rfl rfl rfl
  refine ⟨h.1, ?_⟩
  norm_num [sliceCmd, validFields]

/-- Claim C9: a GET to a `/health`-suffixed path is routed to the health
handler before any body handling: the result is a 200 whose body carries
`status: healthy` and the boolean ffmpeg availability, and the trace is
just the version probe; the 200 holds for every probe outcome. -/
theorem c9_health_routing (cfg : Config) (o : Oracle) (ev : List (String × JVal))
    (hp : pyEndsWith (pathOf ev) "/health" = true) (hm : methodOf ev = "GET") :
    handler cfg o ev = (⟨200, RBody.health (runOk o.healthRun)⟩, [Ev.runVersion]) := by
  have h : isHealthReq ev = true := by simp [isHealthReq, hp, hm]
  simp [handler, h, health]

/-- Witness for C9: the spec's scenario B — the probe raises (binary
absent), yet the status is 200 and the availability flag is false. -/
theorem c9_health_routing_witness :
    handler cfg0 downOracle healthEvent =
      (⟨200, RBody.health false⟩, [Ev.runVersion]) :=
  c9_health_routing cfg0 downOracle healthEvent (by decide) (by decide)

/-- Claim C10: an event with no `body` key is treated as the payload
itself: the handler reads the six fields directly from the event, and
behaves exactly as it would on the same payload wrapped in a `body`
key. -/
theorem c10_bare_event (cfg : Config) (o : Oracle) (ev : List (String × JVal))
    (h1 : isHealthReq ev = false) (h2 : ev.lookup "body" = none) :
    handler cfg o ev = genFromBody cfg o (JVal.obj ev)
    ∧ handler cfg o ev = handler cfg o [("body", JVal.obj ev)] := by
  have hb : bodyOf ev o.jsonLoads = Except.ok (JVal.obj ev) := by simp [bodyOf, h2]
  have hw : handler cfg o [("body", JVal.obj ev)] = genFromBody cfg o (JVal.obj ev) := rfl
  constructor
  · simp [handler, h1, hb]
  · rw [hw]; simp [handler, h1, hb]

/-- Witness for C10: the six fields given bare at the top level produce
the same run as the wrapped `validEvent`. -/
theorem c10_bare_event_witness :
    handler cfg0 okOracle validBody = genFromBody cfg0 okOracle (JVal.obj validBody)
    ∧ handler cfg0 okOracle validBody
        = handler cfg0 okOracle [("body", JVal.obj validBody)] :=
  c10_bare_event cfg0 okOracle validBody (by decide) rfl
